import Mathlib

/-!
A verification development for the cryptographic core of the Mantano LCP
client.  The orchestrating code (`CryptoppCryptoProvider.cpp`,
`LcpServiceCreator.cpp`) is embedded shallowly: statuses become an inductive
type, out-parameters become explicit argument/result pairs, C++ exceptions
become `Option`/`Except`, and the mutable revocation machinery becomes
explicit state passing.  Collaborator components that the orchestrator calls
(certificate parsing, the encryption-profile registry, the CRL updater, the
thread timer, hashing and symmetric ciphers) live behind interfaces; they are
modelled from the specification as fields of an environment record or as
concrete functions.
-/

namespace lcp

/-- The domain status codes returned by the crypto provider, mirroring the
`StatusCode` enumeration used by `CryptoppCryptoProvider.cpp` and
`LcpServiceCreator.cpp`. -/
inductive StatusCode where
  | ErrorCommonSuccess
  | ErrorCommonEncryptionProfileNotFound
  | ErrorOpeningNoRootCertificate
  | ErrorOpeningRootCertificateNotValid
  | ErrorOpeningContentProviderCertificateNotValid
  | ErrorOpeningContentProviderCertificateNotVerified
  | ErrorOpeningContentProviderCertificateNotStarted
  | ErrorOpeningContentProviderCertificateExpired
  | ErrorOpeningContentProviderCertificateRevoked
  | ErrorOpeningLicenseSignatureNotValid
  | ErrorDecryptionUserPassphraseNotValid
  | ErrorDecryptionLicenseEncrypted
  | ErrorDecryptionPublicationEncrypted
  | ErrorDecryptionCommonError
  deriving DecidableEq, Repr

/-! ## Hex conversion helpers

`CryptoppCryptoProvider::ConvertRawToHex` / `ConvertHexToRaw` delegate to
`CryptoppUtils::RawToHex` / `HexToRaw`, whose source is not part of this
fragment; those two helpers are modelled from the spec. -/

/-- Modelled from the spec: the lowercase hexadecimal digit for a value
below 16 (`CryptoppUtils::RawToHex` emits lowercase hex, no separators). -/
def toHexDigit (n : Nat) : Char :=
  if n < 10 then Char.ofNat (48 + n) else Char.ofNat (87 + n)

/-- Modelled from the spec: the value of one hexadecimal digit;
`CryptoppUtils::HexToRaw` accepts both lowercase and uppercase digits. -/
def hexVal (c : Char) : Option Nat :=
  if 48 ≤ c.toNat ∧ c.toNat ≤ 57 then some (c.toNat - 48)
  else if 97 ≤ c.toNat ∧ c.toNat ≤ 102 then some (c.toNat - 87)
  else if 65 ≤ c.toNat ∧ c.toNat ≤ 70 then some (c.toNat - 55)
  else none

/-- Modelled from the spec: `CryptoppUtils::RawToHex`, lowercase hex with no
separators, two digits per byte. -/
def RawToHex (data : List Nat) : String :=
  String.mk (data.flatMap (fun b => [toHexDigit (b / 16), toHexDigit (b % 16)]))

/-- Modelled from the spec: decode a list of hex digits two at a time;
an odd-length tail or a non-hex digit fails (`CommonError` at the caller). -/
def hexPairs : List Char → Option (List Nat)
  | [] => some []
  | [_] => none
  | c1 :: c2 :: rest => do
      let hi ← hexVal c1
      let lo ← hexVal c2
      let tl ← hexPairs rest
      pure ((16 * hi + lo) :: tl)

/-- Modelled from the spec: `CryptoppUtils::HexToRaw`; `none` stands for the
CryptoPP exception that the caller maps to `ErrorDecryptionCommonError`. -/
def HexToRaw (hex : String) : Option (List Nat) :=
  hexPairs hex.data

/-- `CryptoppCryptoProvider::ConvertRawToHex`: the out-parameter `hex` is
overwritten with the hex rendering and the call returns success. -/
def ConvertRawToHex (data : List Nat) (_hex : String) : StatusCode × String :=
  (StatusCode.ErrorCommonSuccess, RawToHex data)

/-- `CryptoppCryptoProvider::ConvertHexToRaw`: on a decode exception the
status is `ErrorDecryptionCommonError` and the out-parameter `data` is left
unchanged; otherwise it receives the decoded bytes. -/
def ConvertHexToRaw (hex : String) (data : List Nat) : StatusCode × List Nat :=
  match HexToRaw hex with
  | some decoded => (StatusCode.ErrorCommonSuccess, decoded)
  | none => (StatusCode.ErrorDecryptionCommonError, data)

theorem hexVal_toHexDigit {n : Nat} (h : n < 16) : hexVal (toHexDigit n) = some n := by
  interval_cases n <;> decide

theorem hexPairs_cons2 (c d : Char) (rest : List Char) (hi lo : Nat) (tl : List Nat)
    (h1 : hexVal c = some hi) (h2 : hexVal d = some lo) (h3 : hexPairs rest = some tl) :
    hexPairs (c :: d :: rest) = some ((16 * hi + lo) :: tl) := by
  simp [hexPairs, h1, h2, h3]

theorem hexPairs_rawDigits {b : List Nat} (h : ∀ x ∈ b, x < 256) :
    hexPairs (b.flatMap (fun x => [toHexDigit (x / 16), toHexDigit (x % 16)])) = some b := by
  induction b with
  | nil => rfl
  | cons x xs ih =>
    have hx : x < 256 := h x (List.mem_cons_self x xs)
    have hhi : x / 16 < 16 := Nat.div_lt_of_lt_mul hx
    have hlo : x % 16 < 16 := Nat.mod_lt x (by decide)
    have hrest : ∀ y ∈ xs, y < 256 := fun y hy => h y (List.mem_cons_of_mem x hy)
    rw [List.flatMap_cons, List.cons_append, List.cons_append, List.nil_append,
      hexPairs_cons2 _ _ _ _ _ _ (hexVal_toHexDigit hhi) (hexVal_toHexDigit hlo) (ih hrest),
      Nat.div_add_mod x 16]

theorem rawToHex_data (b : List Nat) :
    (RawToHex b).data = b.flatMap (fun x => [toHexDigit (x / 16), toHexDigit (x % 16)]) := rfl

theorem hexToRaw_rawToHex {b : List Nat} (h : ∀ x ∈ b, x < 256) :
    HexToRaw (RawToHex b) = some b := by
  unfold HexToRaw
  rw [rawToHex_data]
  exact hexPairs_rawDigits h

theorem rawToHex_length (b : List Nat) : (RawToHex b).length = 2 * b.length := by
  unfold RawToHex
  induction b with
  | nil => rfl
  | cons x xs ih =>
    simp only [List.flatMap_cons, String.length] at *
    simp only [List.length_append, List.length_cons, List.length_nil] at *
    omega

theorem toHexDigit_mem_alphabet {n : Nat} (h : n < 16) :
    toHexDigit n ∈ "0123456789abcdef".data := by
  interval_cases n <;> decide

theorem rawToHex_alphabet {b : List Nat} (h : ∀ x ∈ b, x < 256) :
    ∀ c ∈ (RawToHex b).data, c ∈ "0123456789abcdef".data := by
  intro c hc
  rw [rawToHex_data] at hc
  rcases List.mem_flatMap.mp hc with ⟨x, hx, hcx⟩
  have hx256 : x < 256 := h x hx
  simp only [List.mem_cons, List.mem_singleton, List.not_mem_nil, or_false] at hcx
  rcases hcx with h1 | h1
  · exact h1 ▸ toHexDigit_mem_alphabet (Nat.div_lt_of_lt_mul hx256)
  · exact h1 ▸ toHexDigit_mem_alphabet (Nat.mod_lt x (by decide))

theorem hexPairs_odd : ∀ (l : List Char), l.length % 2 = 1 → hexPairs l = none
  | [], h => by simp at h
  | [_], _ => rfl
  | c1 :: c2 :: rest, h => by
    have hr : rest.length % 2 = 1 := by simp only [List.length_cons] at h; omega
    have ih := hexPairs_odd rest hr
    simp only [hexPairs, ih]
    cases hexVal c1 <;> cases hexVal c2 <;> rfl

/-! ## SHA-256

`Sha256HashAlgorithm` (streaming SHA-256 update/finalize) is not part of this
fragment; it is modelled from the spec by a complete executable SHA-256 over
byte lists (FIPS 180-4). -/

/-- 2^32, the word modulus of SHA-256. -/
def w32 : Nat := 4294967296

/-- Right rotation of a 32-bit word. -/
def rotr (x n : Nat) : Nat := ((x >>> n) ||| (x <<< (32 - n))) % w32

def bigSigma0 (x : Nat) : Nat := (rotr x 2) ^^^ (rotr x 13) ^^^ (rotr x 22)

def bigSigma1 (x : Nat) : Nat := (rotr x 6) ^^^ (rotr x 11) ^^^ (rotr x 25)

def smallSigma0 (x : Nat) : Nat := (rotr x 7) ^^^ (rotr x 18) ^^^ (x >>> 3)

def smallSigma1 (x : Nat) : Nat := (rotr x 17) ^^^ (rotr x 19) ^^^ (x >>> 10)

/-- The 64 SHA-256 round constants, written in decimal. -/
def shaK : List Nat :=
  [1116352408, 1899447441, 3049323471, 3921009573,
   961987163, 1508970993, 2453635748, 2870763221,
   3624381080, 310598401, 607225278, 1426881987,
   1925078388, 2162078206, 2614888103, 3248222580,
   3835390401, 4022224774, 264347078, 604807628,
   770255983, 1249150122, 1555081692, 1996064986,
   2554220882, 2821834349, 2952996808, 3210313671,
   3336571891, 3584528711, 113926993, 338241895,
   666307205, 773529912, 1294757372, 1396182291,
   1695183700, 1986661051, 2177026350, 2456956037,
   2730485921, 2820302411, 3259730800, 3345764771,
   3516065817, 3600352804, 4094571909, 275423344,
   430227734, 506948616, 659060556, 883997877,
   958139571, 1322822218, 1537002063, 1747873779,
   1955562222, 2024104815, 2227730452, 2361852424,
   2428436474, 2756734187, 3204031479, 3329325298]

/-- The SHA-256 initial hash value, written in decimal. -/
def shaH0 : List Nat :=
  [1779033703, 3144134277, 1013904242, 2773480762,
   1359893119, 2600822924, 528734635, 1541459225]

/-- One extension step of the message schedule: appends word `w[t]` computed
from the last 16 words. -/
def scheduleStep (w : List Nat) : List Nat :=
  w ++ [(smallSigma1 (w.getD (w.length - 2) 0) + w.getD (w.length - 7) 0 +
         smallSigma0 (w.getD (w.length - 15) 0) + w.getD (w.length - 16) 0) % w32]

/-- Extends the 16 words of a block to the 64 words of the schedule. -/
def schedule (block : List Nat) : List Nat := Nat.iterate scheduleStep 48 block

/-- The eight working registers of the compression function. -/
structure Regs where
  a : Nat
  b : Nat
  c : Nat
  d : Nat
  e : Nat
  f : Nat
  g : Nat
  h : Nat
  deriving DecidableEq, Repr

/-- One compression round. -/
def shaRound (r : Regs) (kw : Nat × Nat) : Regs :=
  let ch := (r.e &&& r.f) ^^^ ((r.e ^^^ 0xffffffff) &&& r.g)
  let t1 := (r.h + bigSigma1 r.e + ch + kw.1 + kw.2) % w32
  let maj := (r.a &&& r.b) ^^^ (r.a &&& r.c) ^^^ (r.b &&& r.c)
  let t2 := (bigSigma0 r.a + maj) % w32
  ⟨(t1 + t2) % w32, r.a, r.b, r.c, (r.d + t1) % w32, r.e, r.f, r.g⟩

/-- Compression of a single 16-word block into the running hash value. -/
def compressBlock (hv : List Nat) (block : List Nat) : List Nat :=
  let w := schedule block
  let init : Regs := ⟨hv.getD 0 0, hv.getD 1 0, hv.getD 2 0, hv.getD 3 0,
                      hv.getD 4 0, hv.getD 5 0, hv.getD 6 0, hv.getD 7 0⟩
  let fin := (shaK.zip w).foldl shaRound init
  [(hv.getD 0 0 + fin.a) % w32, (hv.getD 1 0 + fin.b) % w32,
   (hv.getD 2 0 + fin.c) % w32, (hv.getD 3 0 + fin.d) % w32,
   (hv.getD 4 0 + fin.e) % w32, (hv.getD 5 0 + fin.f) % w32,
   (hv.getD 6 0 + fin.g) % w32, (hv.getD 7 0 + fin.h) % w32]

/-- The `k` big-endian bytes of `n`. -/
def beBytes (k n : Nat) : List Nat :=
  (List.range k).map (fun i => (n >>> (8 * (k - 1 - i))) % 256)

/-- SHA-256 padding: a `0x80` byte, zeros to 56 mod 64, and the bit length as
eight big-endian bytes. -/
def padMessage (msg : List Nat) : List Nat :=
  msg ++ [128] ++ List.replicate ((64 - ((msg.length + 9) % 64)) % 64) 0 ++
    beBytes 8 (8 * msg.length)

/-- Groups bytes four at a time into big-endian 32-bit words. -/
def bytesToWords : List Nat → List Nat
  | b0 :: b1 :: b2 :: b3 :: rest =>
      (((b0 % 256) <<< 24) ||| ((b1 % 256) <<< 16) ||| ((b2 % 256) <<< 8) ||| (b3 % 256)) ::
        bytesToWords rest
  | _ => []

/-- Groups words sixteen at a time into blocks (the padded message is always
a whole number of 16-word blocks). -/
def toBlocks : List Nat → List (List Nat)
  | w0 :: w1 :: w2 :: w3 :: w4 :: w5 :: w6 :: w7 ::
    w8 :: w9 :: w10 :: w11 :: w12 :: w13 :: w14 :: w15 :: rest =>
      [w0, w1, w2, w3, w4, w5, w6, w7, w8, w9, w10, w11, w12, w13, w14, w15] :: toBlocks rest
  | [] => []
  | ws => [ws]

/-- Modelled from the spec: SHA-256 of a byte sequence
(`Sha256HashAlgorithm`, FIPS 180-4). -/
def sha256 (msg : List Nat) : List Nat :=
  ((toBlocks (bytesToWords (padMessage msg))).foldl compressBlock shaH0).flatMap (beBytes 4)

/-- The UTF-8 encoding of one character. -/
def utf8EncodeCharNat (c : Char) : List Nat :=
  let n := c.toNat
  if n < 0x80 then [n]
  else if n < 0x800 then
    [0xC0 ||| (n >>> 6), 0x80 ||| (n &&& 0x3F)]
  else if n < 0x10000 then
    [0xE0 ||| (n >>> 12), 0x80 ||| ((n >>> 6) &&& 0x3F), 0x80 ||| (n &&& 0x3F)]
  else
    [0xF0 ||| (n >>> 18), 0x80 ||| ((n >>> 12) &&& 0x3F),
     0x80 ||| ((n >>> 6) &&& 0x3F), 0x80 ||| (n &&& 0x3F)]

/-- The UTF-8 bytes of a string (C++ `std::string` contents). -/
def utf8Bytes (s : String) : List Nat := s.data.flatMap utf8EncodeCharNat

theorem compressBlock_length (hv block : List Nat) : (compressBlock hv block).length = 8 := rfl

theorem foldl_compressBlock_length (blocks : List (List Nat)) (hv : List Nat)
    (h : hv.length = 8) : (blocks.foldl compressBlock hv).length = 8 := by
  induction blocks generalizing hv with
  | nil => exact h
  | cons b bs ih => exact ih _ (compressBlock_length hv b)

theorem beBytes_length (k n : Nat) : (beBytes k n).length = k := by
  simp [beBytes]

theorem flatMap_beBytes_length (hs : List Nat) :
    (hs.flatMap (beBytes 4)).length = 4 * hs.length := by
  induction hs with
  | nil => rfl
  | cons x xs ih =>
    rw [List.flatMap_cons, List.length_append, ih, beBytes_length, List.length_cons]
    omega

theorem sha256_length (msg : List Nat) : (sha256 msg).length = 32 := by
  unfold sha256
  rw [flatMap_beBytes_length, foldl_compressBlock_length _ shaH0 (by rfl)]

/-! ## Data model

The license document and its crypto descriptor, as consumed through
`ILicense` / `ICrypto` (spec §3). -/

/-- The crypto descriptor of a license (`ICrypto`). -/
structure ICrypto where
  encryptionProfile : String
  signatureCertificate : String
  signature : String
  userKeyCheck : String
  contentKey : String
  deriving DecidableEq, Repr

/-- A license document (`ILicense`).  `updated` is optional; the empty string
stands for an absent field, matching `license->Updated().empty()`. -/
structure ILicense where
  id : String
  issued : String
  updated : String
  canonicalContent : String
  crypto : ICrypto
  deriving DecidableEq, Repr

/-- Modelled from the spec: an encryption profile (`IEncryptionProfile`),
an immutable algorithm suite.  `userKeyHash` is the user-key hash (SHA-256
for the basic profile); `contentKeyDecrypt` is the whole-buffer content-key
cipher decryption, keyed by a key, applied to a base64 ciphertext field;
`none` stands for the CryptoPP exception a cipher failure raises. -/
structure IEncryptionProfile where
  userKeyHash : List Nat → List Nat
  contentKeyDecrypt : List Nat → String → Option (List Nat)

/-- Modelled from the spec: the semantic attributes of a parsed X.509
certificate (`Certificate`, spec §4.2): serial number bytes, validity-window
date strings, CRL distribution-point URLs. -/
structure Certificate where
  serialNumber : List Nat
  notBeforeDate : String
  notAfterDate : String
  distributionPoints : List String
  deriving DecidableEq, Repr

/-- The kind of a C++ exception crossing the orchestrator: a
`CryptoPP::Exception` (caught by `VerifyLicense`'s outer handler) or any
other exception (which escapes it). -/
inductive ExceptionKind where
  | cryptoPP
  | stdOther
  deriving DecidableEq, Repr

/-- Modelled from the spec: the behaviour of the collaborator components the
orchestrator calls, whose sources are outside this fragment.
`getProfile` is the profile registry lookup (spec §4.1); `parseCertificate`
is DER parsing (`none` = `CryptoPP::BERDecodeErr`, spec §4.2);
`verifyCertificate` is the chain check of a certificate against its issuer;
`verifyMessage` checks a signature over a message with the certificate's
public key; `parseDateTime` places an RFC 3339 timestamp on the integer
timeline (`DateTime`); `crlUpdate` is `CrlUpdater::Update`, producing the
merged revocation serials from the known distribution points (fetch failures
are logged inside it, spec §4.5). -/
structure Env where
  getProfile : String → Option IEncryptionProfile
  parseCertificate : IEncryptionProfile → String → Option Certificate
  verifyCertificate : Certificate → Certificate → Bool
  verifyMessage : Certificate → String → String → Bool
  parseDateTime : String → Int
  crlUpdate : List String → List (List Nat) → List (List Nat)

/-- The mutable revocation machinery owned by the provider: the CRL
updater's known distribution-point URLs, the revocation list's serials, the
thread timer's running flag, and the exception slot captured on the timer
thread. -/
structure CrlState where
  urls : List String
  revokedSerials : List (List Nat)
  timerRunning : Bool
  capturedException : Option ExceptionKind
  deriving DecidableEq, Repr

/-- Modelled from the spec: `CrlUpdater::UpdateCrlDistributionPoints` merges
URLs into the known set, deduplicating. -/
def mergeUrls (known : List String) (distributionPoints : List String) : List String :=
  distributionPoints.foldl (fun acc u => if acc.contains u then acc else acc ++ [u]) known

/-- The observable outcome of `ProcessRevokation`: its status or escaping
exception, the updated revocation machinery, and whether this call performed
the one-time synchronous CRL update and started the background timer. -/
structure RevocationOutcome where
  result : Except ExceptionKind StatusCode
  state : CrlState
  didSyncUpdate : Bool
  didStartTimer : Bool

/-- `CryptoppCryptoProvider::ProcessRevokation`: snapshot whether any URL was
known, merge the certificate's distribution points, on the first URL seen run
one synchronous update and start the timer, rethrow (and clear) any captured
timer-thread exception, then report `CertificateRevoked` when the
certificate's serial is on the revocation list. -/
def ProcessRevokation (env : Env) (st : CrlState) (providerCertificate : Certificate) :
    RevocationOutcome :=
  let containedAnyUrlBefore := !st.urls.isEmpty
  let mergedUrls := mergeUrls st.urls providerCertificate.distributionPoints
  let firstTime := !containedAnyUrlBefore && !mergedUrls.isEmpty
  let serials := if firstTime then env.crlUpdate mergedUrls st.revokedSerials else st.revokedSerials
  let newState : CrlState :=
    { urls := mergedUrls
      revokedSerials := serials
      timerRunning := st.timerRunning || firstTime
      capturedException := none }
  match st.capturedException with
  | some ex =>
      { result := Except.error ex, state := newState
        didSyncUpdate := firstTime, didStartTimer := firstTime }
  | none =>
      { result := Except.ok
          (if serials.contains providerCertificate.serialNumber then
            StatusCode.ErrorOpeningContentProviderCertificateRevoked
          else StatusCode.ErrorCommonSuccess)
        state := newState, didSyncUpdate := firstTime, didStartTimer := firstTime }

/-- The timestamp `VerifyLicense` checks against the certificate validity
window: `license.updated` when that field is non-empty, else
`license.issued`. -/
def lastUpdated (env : Env) (license : ILicense) : Int :=
  if !license.updated.isEmpty then env.parseDateTime license.updated
  else env.parseDateTime license.issued

/-- `CryptoppCryptoProvider::VerifyLicense`.  The whole body runs in a `try`
block whose handler maps any `CryptoPP::Exception` to
`ErrorOpeningContentProviderCertificateNotVerified`; the only modelled throw
site reaching it is the rethrow of a captured timer-thread exception inside
`ProcessRevokation` (certificate parse failures are caught earlier by the
dedicated inner handlers).  A non-CryptoPP exception escapes the function,
modelled by `Except.error`. -/
def VerifyLicense (env : Env) (st : CrlState) (rootCertificateBase64 : String)
    (license : ILicense) : Except ExceptionKind StatusCode × CrlState :=
  match env.getProfile license.crypto.encryptionProfile with
  | none => (Except.ok StatusCode.ErrorCommonEncryptionProfileNotFound, st)
  | some profile =>
    if rootCertificateBase64.isEmpty then
      (Except.ok StatusCode.ErrorOpeningNoRootCertificate, st)
    else
      match env.parseCertificate profile rootCertificateBase64 with
      | none => (Except.ok StatusCode.ErrorOpeningRootCertificateNotValid, st)
      | some rootCertificate =>
        match env.parseCertificate profile license.crypto.signatureCertificate with
        | none => (Except.ok StatusCode.ErrorOpeningContentProviderCertificateNotValid, st)
        | some providerCertificate =>
          if !env.verifyCertificate providerCertificate rootCertificate then
            (Except.ok StatusCode.ErrorOpeningContentProviderCertificateNotVerified, st)
          else
            let out := ProcessRevokation env st providerCertificate
            match out.result with
            | Except.error ExceptionKind.cryptoPP =>
                (Except.ok StatusCode.ErrorOpeningContentProviderCertificateNotVerified, out.state)
            | Except.error ExceptionKind.stdOther =>
                (Except.error ExceptionKind.stdOther, out.state)
            | Except.ok res =>
              if res ≠ StatusCode.ErrorCommonSuccess then
                (Except.ok res, out.state)
              else if !env.verifyMessage providerCertificate license.canonicalContent
                  license.crypto.signature then
                (Except.ok StatusCode.ErrorOpeningLicenseSignatureNotValid, out.state)
              else
                let notBefore := env.parseDateTime providerCertificate.notBeforeDate
                let notAfter := env.parseDateTime providerCertificate.notAfterDate
                if lastUpdated env license < notBefore then
                  (Except.ok StatusCode.ErrorOpeningContentProviderCertificateNotStarted, out.state)
                else if lastUpdated env license > notAfter then
                  (Except.ok StatusCode.ErrorOpeningContentProviderCertificateExpired, out.state)
                else
                  (Except.ok StatusCode.ErrorCommonSuccess, out.state)

/-- `CryptoppCryptoProvider::DecryptUserKey`.  The out-parameter `userKey` is
threaded explicitly: the returned second component is its content after the
call.  The decrypted user-key check is compared byte-equal with the UTF-8
license id (`EqualsUtf8`); a cipher exception and a mismatch give the same
status. -/
def DecryptUserKey (env : Env) (userPassphrase : String) (license : ILicense)
    (userKey : List Nat) : StatusCode × List Nat :=
  match env.getProfile license.crypto.encryptionProfile with
  | none => (StatusCode.ErrorCommonEncryptionProfileNotFound, userKey)
  | some profile =>
    let newUserKey := profile.userKeyHash (utf8Bytes userPassphrase)
    match profile.contentKeyDecrypt newUserKey license.crypto.userKeyCheck with
    | none => (StatusCode.ErrorDecryptionUserPassphraseNotValid, newUserKey)
    | some id =>
      if id = utf8Bytes license.id then (StatusCode.ErrorCommonSuccess, newUserKey)
      else (StatusCode.ErrorDecryptionUserPassphraseNotValid, newUserKey)

/-- `CryptoppCryptoProvider::DecryptContentKey`.  The out-parameter
`contentKey` is threaded explicitly; it is assigned only after a successful
decryption. -/
def DecryptContentKey (env : Env) (userKey : List Nat) (license : ILicense)
    (contentKey : List Nat) : StatusCode × List Nat :=
  match env.getProfile license.crypto.encryptionProfile with
  | none => (StatusCode.ErrorCommonEncryptionProfileNotFound, contentKey)
  | some profile =>
    match profile.contentKeyDecrypt userKey license.crypto.contentKey with
    | none => (StatusCode.ErrorDecryptionLicenseEncrypted, contentKey)
    | some decryptedContentKey => (StatusCode.ErrorCommonSuccess, decryptedContentKey)

/-! ## File hashing -/

/-- The read-buffer size of `CalculateFileHash`: 1 MiB. -/
def bufferSize : Nat := 1024 * 1024

/-- The sequence of chunks the `CalculateFileHash` loop reads: each
iteration reads `min(bufferSize, fileSize - read)` bytes until `read`
reaches `fileSize`. -/
def readChunks (l : List Nat) : List (List Nat) :=
  match l with
  | [] => []
  | b :: rest => ((b :: rest).take bufferSize) :: readChunks (rest.drop (bufferSize - 1))
termination_by l.length
decreasing_by simp [List.length_drop]; omega

/-- `CryptoppCryptoProvider::CalculateFileHash`: feed the stream to the
SHA-256 algorithm chunk by chunk and store the digest in the out-parameter
`rawHash`. -/
def CalculateFileHash (stream : List Nat) (_rawHash : List Nat) : StatusCode × List Nat :=
  let absorbed := (readChunks stream).foldl (fun acc chunk => acc ++ chunk) []
  (StatusCode.ErrorCommonSuccess, sha256 absorbed)

/-! ## Service creation -/

/-- Modelled from the spec: an `LcpService` instance records its
construction arguments (the collaborator providers are abstract handles). -/
structure LcpService where
  rootCertificate : String
  netProvider : Nat
  storageProvider : Nat
  fileSystemProvider : Nat
  deriving DecidableEq, Repr

/-- A C++ exception thrown by `LcpServiceCreator`. -/
inductive CppException where
  | invalidArgument (msg : String)
  deriving DecidableEq, Repr

/-- `LcpServiceCreator::CreateLcpService`.  The C++ out-pointer
`ILcpService ** lcpService` is modelled by `lcpServiceIsNull` (whether the
pointer itself is null) together with the returned service written through
it; a null pointer throws `std::invalid_argument`. -/
def CreateLcpService (rootCertificate : String)
    (netProvider storageProvider fileSystemProvider : Nat)
    (lcpServiceIsNull : Bool) : Except CppException (StatusCode × LcpService) :=
  if lcpServiceIsNull then
    Except.error (CppException.invalidArgument "lcpService is nullptr")
  else
    Except.ok (StatusCode.ErrorCommonSuccess,
      ⟨rootCertificate, netProvider, storageProvider, fileSystemProvider⟩)

/-! ## Concrete test fixtures

A small closed world used to instantiate the theorems on concrete inputs. -/

/-- Serial number of the test provider certificate. -/
def testSerial : List Nat := [10, 11]

/-- The test provider certificate. -/
def testCert : Certificate :=
  { serialNumber := testSerial
    notBeforeDate := "2020-01-01T00:00:00Z"
    notAfterDate := "2025-01-01T00:00:00Z"
    distributionPoints := ["http://crl.example.org/lcp.crl"] }

/-- The test root certificate. -/
def testRootCert : Certificate :=
  { serialNumber := [1]
    notBeforeDate := "2019-01-01T00:00:00Z"
    notAfterDate := "2030-01-01T00:00:00Z"
    distributionPoints := [] }

/-- The test encryption profile: SHA-256 user-key hash, and a content-key
cipher that recognises the two ciphertext fields of `testLicense`
(an unknown ciphertext raises, i.e. returns `none`). -/
def testProfile : IEncryptionProfile :=
  { userKeyHash := sha256
    contentKeyDecrypt := fun key ct =>
      if ct = "b64:userKeyCheck" then
        some (if key = sha256 (utf8Bytes "hunter2") then utf8Bytes "urn:uuid:123"
              else utf8Bytes "garbage")
      else if ct = "b64:contentKey" then some [7, 7, 7]
      else none }

/-- The test license. -/
def testLicense : ILicense :=
  { id := "urn:uuid:123"
    issued := "2022-06-01T00:00:00Z"
    updated := ""
    canonicalContent := "canonical-bytes"
    crypto :=
      { encryptionProfile := "http://readium.org/lcp/profile-1.0"
        signatureCertificate := "b64:providerCert"
        signature := "b64:signature"
        userKeyCheck := "b64:userKeyCheck"
        contentKey := "b64:contentKey" } }

/-- The test environment: one known profile, two parseable certificates, a
signature oracle accepting exactly the test data, a small date table, and a
CRL update that leaves the revocation list unchanged. -/
def testEnv : Env :=
  { getProfile := fun uri =>
      if uri = "http://readium.org/lcp/profile-1.0" then some testProfile else none
    parseCertificate := fun _ s =>
      if s = "b64:rootCert" then some testRootCert
      else if s = "b64:providerCert" then some testCert
      else none
    verifyCertificate := fun c r => decide (c = testCert) && decide (r = testRootCert)
    verifyMessage := fun c m sg =>
      decide (c = testCert) && decide (m = "canonical-bytes") && decide (sg = "b64:signature")
    parseDateTime := fun s =>
      if s = "2019-06-01T00:00:00Z" then 2019
      else if s = "2020-01-01T00:00:00Z" then 2020
      else if s = "2022-06-01T00:00:00Z" then 2022
      else if s = "2025-01-01T00:00:00Z" then 2025
      else if s = "2026-06-01T00:00:00Z" then 2026
      else 0
    crlUpdate := fun _ old => old }

/-- The provider's initial revocation machinery: no URLs, nothing revoked,
timer idle, no captured exception. -/
def emptyCrlState : CrlState :=
  { urls := [], revokedSerials := [], timerRunning := false, capturedException := none }

/-- A state in which the background timer thread has captured a CryptoPP
exception from a failed CRL fetch, and no serial has been merged. -/
def crlFailureState : CrlState :=
  { urls := ["http://crl.example.org/lcp.crl"]
    revokedSerials := []
    timerRunning := true
    capturedException := some ExceptionKind.cryptoPP }

/-- An environment identical to `testEnv` except that the CRL update merges
the test certificate's serial into the revocation list. -/
def revokingEnv : Env :=
  { testEnv with crlUpdate := fun _ old => testSerial :: old }

/-- A license whose content-key ciphertext the test cipher rejects. -/
def corruptLicense : ILicense :=
  { testLicense with crypto := { testLicense.crypto with contentKey := "b64:bogus" } }

/-- A license whose user-key-check ciphertext the test cipher rejects. -/
def corruptCheckLicense : ILicense :=
  { testLicense with crypto := { testLicense.crypto with userKeyCheck := "b64:bogus" } }

/-- A license naming an encryption profile the registry does not know. -/
def unknownProfileLicense : ILicense :=
  { testLicense with crypto := { testLicense.crypto with encryptionProfile := "urn:unknown" } }

/-- A license last updated exactly at the certificate's `notBefore`. -/
def licenseAtNotBefore : ILicense := { testLicense with updated := "2020-01-01T00:00:00Z" }

/-- A license last updated exactly at the certificate's `notAfter`. -/
def licenseAtNotAfter : ILicense := { testLicense with updated := "2025-01-01T00:00:00Z" }

/-- A license last updated strictly before the certificate's `notBefore`. -/
def licenseBeforeWindow : ILicense := { testLicense with updated := "2019-06-01T00:00:00Z" }

/-- A license last updated strictly after the certificate's `notAfter`. -/
def licenseAfterWindow : ILicense := { testLicense with updated := "2026-06-01T00:00:00Z" }

/-! ## Helper lemmas -/

theorem isEmpty_false_of_ne {s : String} (h : s ≠ "") : s.isEmpty = false := by
  cases hb : s.isEmpty
  · rfl
  · exact absurd ((String.isEmpty_iff s).mp hb) h

theorem readChunks_flatten (l : List Nat) : (readChunks l).flatten = l := by
  induction l using readChunks.induct with
  | case1 => simp [readChunks]
  | case2 b rest ih =>
    simp only [readChunks, List.flatten_cons, ih]
    have hb : bufferSize = (bufferSize - 1) + 1 := by decide
    have h2 : (b :: rest).drop bufferSize = rest.drop (bufferSize - 1) := by
      conv_lhs => rw [hb, List.drop_succ_cons]
    rw [← h2]
    conv_rhs => rw [← List.take_append_drop bufferSize (b :: rest)]

theorem readChunks_all_le (l : List Nat) :
    (readChunks l).all (fun c => decide (c.length ≤ bufferSize)) = true := by
  induction l using readChunks.induct with
  | case1 => simp [readChunks]
  | case2 b rest ih =>
    simp only [readChunks, List.all_cons, ih, Bool.and_true, decide_eq_true_eq]
    exact List.length_take_le _ _

theorem foldl_append_eq_flatten (L : List (List Nat)) (acc : List Nat) :
    L.foldl (fun a c => a ++ c) acc = acc ++ L.flatten := by
  induction L generalizing acc with
  | nil => simp
  | cons x xs ih => simp [ih, List.append_assoc]

/-! ## Claim theorems -/

/-- C9: `CreateLcpService` treats a null output pointer as a
programmer-contract violation, not a status code: with a null `lcpService`
it throws `std::invalid_argument`, and with a non-null one it returns
`Success` and writes a newly constructed service through the pointer. -/
theorem createLcpService_null_contract (rootCertificate : String)
    (netProvider storageProvider fileSystemProvider : Nat) (lcpServiceIsNull : Bool) :
    (lcpServiceIsNull = true →
      CreateLcpService rootCertificate netProvider storageProvider fileSystemProvider
          lcpServiceIsNull =
        Except.error (CppException.invalidArgument "lcpService is nullptr"))
    ∧ (lcpServiceIsNull = false →
      CreateLcpService rootCertificate netProvider storageProvider fileSystemProvider
          lcpServiceIsNull =
        Except.ok (StatusCode.ErrorCommonSuccess,
          ⟨rootCertificate, netProvider, storageProvider, fileSystemProvider⟩)) := by
  constructor <;> intro h <;> subst h <;> rfl

/-- Witness for C9 at a concrete input: the null pointer throws, the
non-null pointer receives the constructed service. -/
theorem createLcpService_null_contract_witness :
    CreateLcpService "rootCert" 1 2 3 true =
      Except.error (CppException.invalidArgument "lcpService is nullptr")
    ∧ CreateLcpService "rootCert" 1 2 3 false =
      Except.ok (StatusCode.ErrorCommonSuccess, ⟨"rootCert", 1, 2, 3⟩) :=
  ⟨(createLcpService_null_contract "rootCert" 1 2 3 true).1 rfl,
   (createLcpService_null_contract "rootCert" 1 2 3 false).2 rfl⟩

/-- C5: hex/raw conversion round-trips: `ConvertHexToRaw` undoes
`ConvertRawToHex`, the produced hex string has length `2·|b|` over the
lowercase alphabet `[0-9a-f]` with no separators, uppercase digits are
accepted on input, and an odd-length hex input yields
`ErrorDecryptionCommonError` with the out-parameter unchanged. -/
theorem convertHex_roundtrip (b : List Nat) (hex0 : String) (data0 : List Nat)
    (hb : ∀ x ∈ b, x < 256) :
    (ConvertRawToHex b hex0).1 = StatusCode.ErrorCommonSuccess
    ∧ ConvertHexToRaw (ConvertRawToHex b hex0).2 data0 = (StatusCode.ErrorCommonSuccess, b)
    ∧ (ConvertRawToHex b hex0).2.length = 2 * b.length
    ∧ (∀ c ∈ (ConvertRawToHex b hex0).2.data, c ∈ "0123456789abcdef".data)
    ∧ ConvertHexToRaw "00FF10" data0 = (StatusCode.ErrorCommonSuccess, [0, 255, 16])
    ∧ (∀ hx : String, hx.length % 2 = 1 →
        ConvertHexToRaw hx data0 = (StatusCode.ErrorDecryptionCommonError, data0)) := by
  refine ⟨rfl, ?_, rawToHex_length b, rawToHex_alphabet hb, rfl, ?_⟩
  · show ConvertHexToRaw (RawToHex b) data0 = (StatusCode.ErrorCommonSuccess, b)
    unfold ConvertHexToRaw
    rw [hexToRaw_rawToHex hb]
  · intro hx hodd
    unfold ConvertHexToRaw HexToRaw
    rw [hexPairs_odd hx.data hodd]

/-- Witness for C5 at `b = [0x00, 0xff, 0x10]`: the round-trip returns the
bytes, and the produced hex string is `"00ff10"`. -/
theorem convertHex_roundtrip_witness :
    (∀ x ∈ ([0, 255, 16] : List Nat), x < 256)
    ∧ ConvertHexToRaw (ConvertRawToHex [0, 255, 16] "").2 [] =
        (StatusCode.ErrorCommonSuccess, [0, 255, 16])
    ∧ (ConvertRawToHex [0, 255, 16] "").2 = "00ff10" :=
  ⟨by decide, (convertHex_roundtrip [0, 255, 16] "" [] (by decide)).2.1, rfl⟩

/-- C4: `DecryptContentKey` with a known profile decrypts the license's
content-key field keyed by the given user key; on success the content-key
out-parameter receives exactly the decrypted bytes, and on a cipher failure
the status is `ErrorDecryptionLicenseEncrypted` with the out-parameter
unchanged. -/
theorem decryptContentKey_spec (env : Env) (userKey : List Nat) (license : ILicense)
    (contentKey0 : List Nat) (profile : IEncryptionProfile)
    (hp : env.getProfile license.crypto.encryptionProfile = some profile) :
    (∀ d, profile.contentKeyDecrypt userKey license.crypto.contentKey = some d →
      DecryptContentKey env userKey license contentKey0 = (StatusCode.ErrorCommonSuccess, d))
    ∧ (profile.contentKeyDecrypt userKey license.crypto.contentKey = none →
      DecryptContentKey env userKey license contentKey0 =
        (StatusCode.ErrorDecryptionLicenseEncrypted, contentKey0)) := by
  constructor
  · intro d hd
    simp [DecryptContentKey, hp, hd]
  · intro hn
    simp [DecryptContentKey, hp, hn]

/-- Witness for C4: the test cipher unwraps `testLicense`'s content key to
`[7, 7, 7]`, and rejects `corruptLicense`'s ciphertext leaving the
out-parameter `[9]` unchanged. -/
theorem decryptContentKey_spec_witness :
    DecryptContentKey testEnv [1] testLicense [9] = (StatusCode.ErrorCommonSuccess, [7, 7, 7])
    ∧ DecryptContentKey testEnv [1] corruptLicense [9] =
        (StatusCode.ErrorDecryptionLicenseEncrypted, [9]) :=
  ⟨(decryptContentKey_spec testEnv [1] testLicense [9] testProfile rfl).1 [7, 7, 7] rfl,
   (decryptContentKey_spec testEnv [1] corruptLicense [9] testProfile rfl).2 rfl⟩

/-- C3: `DecryptUserKey` with a known profile derives the user key as the
profile's hash (SHA-256 for the basic profile) of the UTF-8 passphrase
bytes, decrypts the license's user-key check with the content-key cipher
keyed by it, and succeeds exactly when the decrypted bytes equal the UTF-8
license id; a cipher exception and a byte mismatch both give
`ErrorDecryptionUserPassphraseNotValid`. -/
theorem decryptUserKey_spec (env : Env) (userPassphrase : String) (license : ILicense)
    (userKey0 : List Nat) (profile : IEncryptionProfile)
    (hp : env.getProfile license.crypto.encryptionProfile = some profile) :
    ((DecryptUserKey env userPassphrase license userKey0).2 =
        profile.userKeyHash (utf8Bytes userPassphrase))
    ∧ ((DecryptUserKey env userPassphrase license userKey0).1 = StatusCode.ErrorCommonSuccess ↔
        profile.contentKeyDecrypt (profile.userKeyHash (utf8Bytes userPassphrase))
          license.crypto.userKeyCheck = some (utf8Bytes license.id))
    ∧ (profile.contentKeyDecrypt (profile.userKeyHash (utf8Bytes userPassphrase))
          license.crypto.userKeyCheck = none →
        (DecryptUserKey env userPassphrase license userKey0).1 =
          StatusCode.ErrorDecryptionUserPassphraseNotValid)
    ∧ (∀ d, profile.contentKeyDecrypt (profile.userKeyHash (utf8Bytes userPassphrase))
          license.crypto.userKeyCheck = some d → d ≠ utf8Bytes license.id →
        (DecryptUserKey env userPassphrase license userKey0).1 =
          StatusCode.ErrorDecryptionUserPassphraseNotValid) := by
  cases hd : profile.contentKeyDecrypt (profile.userKeyHash (utf8Bytes userPassphrase))
      license.crypto.userKeyCheck with
  | none =>
    refine ⟨?_, ?_, ?_, ?_⟩ <;>
      simp [DecryptUserKey, hp, hd]
  | some d =>
    by_cases hid : d = utf8Bytes license.id <;>
      refine ⟨?_, ?_, ?_, ?_⟩ <;>
      simp_all [DecryptUserKey, hp, hd]

/-- Witness for C3: with the correct passphrase `"hunter2"` the check
decrypts to the license id and the call succeeds; with `"wrong"` the check
decrypts to other bytes and the call reports
`ErrorDecryptionUserPassphraseNotValid`; a corrupted check ciphertext gives
the same status. -/
theorem decryptUserKey_spec_witness :
    (DecryptUserKey testEnv "hunter2" testLicense []).1 = StatusCode.ErrorCommonSuccess
    ∧ (DecryptUserKey testEnv "wrong" testLicense []).1 =
        StatusCode.ErrorDecryptionUserPassphraseNotValid
    ∧ (DecryptUserKey testEnv "hunter2" corruptCheckLicense []).1 =
        StatusCode.ErrorDecryptionUserPassphraseNotValid :=
  ⟨(decryptUserKey_spec testEnv "hunter2" testLicense [] testProfile rfl).2.1.mpr rfl,
   (decryptUserKey_spec testEnv "wrong" testLicense [] testProfile rfl).2.2.2
     (utf8Bytes "garbage") rfl (by decide),
   (decryptUserKey_spec testEnv "hunter2" corruptCheckLicense [] testProfile rfl).2.2.1 rfl⟩

/-- C10: `DecryptUserKey` is not atomic on error with respect to its
`userKey` out-parameter: with a known profile the out-parameter is
overwritten with the hash of the UTF-8 passphrase bytes (SHA-256 for the
basic profile) before the check comparison, so even the mismatch path
returns the derived key; only the unknown-profile path leaves it
unchanged. -/
theorem decryptUserKey_overwrites (env : Env) (userPassphrase : String) (license : ILicense)
    (userKey0 : List Nat) :
    (∀ profile, env.getProfile license.crypto.encryptionProfile = some profile →
      (DecryptUserKey env userPassphrase license userKey0).2 =
        profile.userKeyHash (utf8Bytes userPassphrase)
      ∧ (∀ d, profile.contentKeyDecrypt (profile.userKeyHash (utf8Bytes userPassphrase))
            license.crypto.userKeyCheck = some d → d ≠ utf8Bytes license.id →
          DecryptUserKey env userPassphrase license userKey0 =
            (StatusCode.ErrorDecryptionUserPassphraseNotValid,
             profile.userKeyHash (utf8Bytes userPassphrase))))
    ∧ (env.getProfile license.crypto.encryptionProfile = none →
      DecryptUserKey env userPassphrase license userKey0 =
        (StatusCode.ErrorCommonEncryptionProfileNotFound, userKey0)) := by
  constructor
  · intro profile hp
    constructor
    · cases hd : profile.contentKeyDecrypt (profile.userKeyHash (utf8Bytes userPassphrase))
          license.crypto.userKeyCheck with
      | none => simp [DecryptUserKey, hp, hd]
      | some d =>
        by_cases hid : d = utf8Bytes license.id <;> simp [DecryptUserKey, hp, hd, hid]
    · intro d hd hne
      simp [DecryptUserKey, hp, hd, hne]
  · intro hn
    simp [DecryptUserKey, hn]

/-- Witness for C10: with the wrong passphrase the out-parameter `[42]` is
overwritten by the derived SHA-256 key while the status reports failure, and
with an unknown profile it is left unchanged. -/
theorem decryptUserKey_overwrites_witness :
    DecryptUserKey testEnv "wrong" testLicense [42] =
      (StatusCode.ErrorDecryptionUserPassphraseNotValid, sha256 (utf8Bytes "wrong"))
    ∧ DecryptUserKey testEnv "wrong" unknownProfileLicense [42] =
        (StatusCode.ErrorCommonEncryptionProfileNotFound, [42]) :=
  ⟨((decryptUserKey_overwrites testEnv "wrong" testLicense [42]).1 testProfile rfl).2
     (utf8Bytes "garbage") rfl (by decide),
   (decryptUserKey_overwrites testEnv "wrong" unknownProfileLicense [42]).2 rfl⟩

/-- C6: `CalculateFileHash` returns `Success` with the out-parameter equal
to the 32-byte SHA-256 digest of the whole stream contents; the loop reads
chunks of at most 1 MiB (`bufferSize`) whose concatenation is the stream,
so the digest is independent of the size-based chunking; a size-0 stream
gives the digest of the empty byte sequence. -/
theorem calculateFileHash_spec (stream rawHash0 : List Nat) :
    CalculateFileHash stream rawHash0 = (StatusCode.ErrorCommonSuccess, sha256 stream)
    ∧ (sha256 stream).length = 32
    ∧ (readChunks stream).all (fun c => decide (c.length ≤ bufferSize)) = true
    ∧ (readChunks stream).flatten = stream
    ∧ CalculateFileHash [] rawHash0 = (StatusCode.ErrorCommonSuccess, sha256 [])
    ∧ sha256 [] =
        [0xe3, 0xb0, 0xc4, 0x42, 0x98, 0xfc, 0x1c, 0x14, 0x9a, 0xfb, 0xf4, 0xc8,
         0x99, 0x6f, 0xb9, 0x24, 0x27, 0xae, 0x41, 0xe4, 0x64, 0x9b, 0x93, 0x4c,
         0xa4, 0x95, 0x99, 0x1b, 0x78, 0x52, 0xb8, 0x55] := by
  have habs : ∀ s : List Nat,
      (readChunks s).foldl (fun acc chunk => acc ++ chunk) [] = s := fun s => by
    rw [foldl_append_eq_flatten, List.nil_append, readChunks_flatten]
  refine ⟨?_, sha256_length stream, readChunks_all_le stream, readChunks_flatten stream,
    ?_, by decide⟩
  · unfold CalculateFileHash
    rw [habs stream]
  · unfold CalculateFileHash
    rw [habs []]

/-- C1: `VerifyLicense` applies its checks in the spec's order and returns
the status of the first failing check: unknown profile, then empty root
string, then root DER failure, then provider-certificate DER failure, then
chain verification; revocation, the license signature and the validity
window are only reached after all of these pass, and when every check
passes the result is `Success`. -/
theorem verifyLicense_check_order (env : Env) (st : CrlState) (root : String)
    (license : ILicense) :
    (env.getProfile license.crypto.encryptionProfile = none →
      VerifyLicense env st root license =
        (Except.ok StatusCode.ErrorCommonEncryptionProfileNotFound, st))
    ∧ (∀ profile, env.getProfile license.crypto.encryptionProfile = some profile →
      root = "" →
      VerifyLicense env st root license =
        (Except.ok StatusCode.ErrorOpeningNoRootCertificate, st))
    ∧ (∀ profile, env.getProfile license.crypto.encryptionProfile = some profile →
      root ≠ "" → env.parseCertificate profile root = none →
      VerifyLicense env st root license =
        (Except.ok StatusCode.ErrorOpeningRootCertificateNotValid, st))
    ∧ (∀ profile rootCertificate,
      env.getProfile license.crypto.encryptionProfile = some profile →
      root ≠ "" → env.parseCertificate profile root = some rootCertificate →
      env.parseCertificate profile license.crypto.signatureCertificate = none →
      VerifyLicense env st root license =
        (Except.ok StatusCode.ErrorOpeningContentProviderCertificateNotValid, st))
    ∧ (∀ profile rootCertificate providerCertificate,
      env.getProfile license.crypto.encryptionProfile = some profile →
      root ≠ "" → env.parseCertificate profile root = some rootCertificate →
      env.parseCertificate profile license.crypto.signatureCertificate =
        some providerCertificate →
      env.verifyCertificate providerCertificate rootCertificate = false →
      VerifyLicense env st root license =
        (Except.ok StatusCode.ErrorOpeningContentProviderCertificateNotVerified, st))
    ∧ (∀ profile rootCertificate providerCertificate,
      env.getProfile license.crypto.encryptionProfile = some profile →
      root ≠ "" → env.parseCertificate profile root = some rootCertificate →
      env.parseCertificate profile license.crypto.signatureCertificate =
        some providerCertificate →
      env.verifyCertificate providerCertificate rootCertificate = true →
      (ProcessRevokation env st providerCertificate).result =
        Except.ok StatusCode.ErrorCommonSuccess →
      env.verifyMessage providerCertificate license.canonicalContent
        license.crypto.signature = true →
      env.parseDateTime providerCertificate.notBeforeDate ≤ lastUpdated env license →
      lastUpdated env license ≤ env.parseDateTime providerCertificate.notAfterDate →
      VerifyLicense env st root license =
        (Except.ok StatusCode.ErrorCommonSuccess,
         (ProcessRevokation env st providerCertificate).state)) := by
  refine ⟨?_, ?_, ?_, ?_, ?_, ?_⟩
  · intro hp
    simp [VerifyLicense, hp]
  · intro profile hp hr
    subst hr
    simp [VerifyLicense, hp, String.isEmpty]
  · intro profile hp hr h1
    simp [VerifyLicense, hp, isEmpty_false_of_ne hr, h1]
  · intro profile rootCertificate hp hr h1 h2
    simp [VerifyLicense, hp, isEmpty_false_of_ne hr, h1, h2]
  · intro profile rootCertificate providerCertificate hp hr h1 h2 h3
    simp [VerifyLicense, hp, isEmpty_false_of_ne hr, h1, h2, h3]
  · intro profile rootCertificate providerCertificate hp hr h1 h2 h3 hrev h5 h6 h7
    simp [VerifyLicense, hp, isEmpty_false_of_ne hr, h1, h2, h3, hrev, h5,
      not_lt.mpr h6, not_lt.mpr h7]

/-- Witness for C1: in the test world every check passes and the call
returns `Success` with the revocation machinery advanced by
`ProcessRevokation`. -/
theorem verifyLicense_check_order_witness :
    VerifyLicense testEnv emptyCrlState "b64:rootCert" testLicense =
      (Except.ok StatusCode.ErrorCommonSuccess,
       (ProcessRevokation testEnv emptyCrlState testCert).state) :=
  (verifyLicense_check_order testEnv emptyCrlState "b64:rootCert" testLicense).2.2.2.2.2
    testProfile testRootCert testCert rfl (by decide) rfl rfl rfl rfl rfl
    (by decide) (by decide)

/-- C2: after all certificate and signature checks pass, `VerifyLicense`
takes `lastUpdated` to be `license.updated` when non-empty and
`license.issued` otherwise, returns `CertificateNotStarted` when
`lastUpdated` is strictly before the certificate's `notBefore` and
`CertificateExpired` when strictly after `notAfter`, and accepts both
boundaries inclusively (equality at either end returns `Success`). -/
theorem verifyLicense_validity_window (env : Env) (st : CrlState) (root : String)
    (license : ILicense) (profile : IEncryptionProfile)
    (rootCertificate providerCertificate : Certificate)
    (hp : env.getProfile license.crypto.encryptionProfile = some profile)
    (hr : root ≠ "")
    (h1 : env.parseCertificate profile root = some rootCertificate)
    (h2 : env.parseCertificate profile license.crypto.signatureCertificate =
      some providerCertificate)
    (h3 : env.verifyCertificate providerCertificate rootCertificate = true)
    (hrev : (ProcessRevokation env st providerCertificate).result =
      Except.ok StatusCode.ErrorCommonSuccess)
    (h5 : env.verifyMessage providerCertificate license.canonicalContent
      license.crypto.signature = true) :
    (license.updated ≠ "" → lastUpdated env license = env.parseDateTime license.updated)
    ∧ (license.updated = "" → lastUpdated env license = env.parseDateTime license.issued)
    ∧ (lastUpdated env license < env.parseDateTime providerCertificate.notBeforeDate →
      (VerifyLicense env st root license).1 =
        Except.ok StatusCode.ErrorOpeningContentProviderCertificateNotStarted)
    ∧ (env.parseDateTime providerCertificate.notBeforeDate ≤
        env.parseDateTime providerCertificate.notAfterDate →
      lastUpdated env license > env.parseDateTime providerCertificate.notAfterDate →
      (VerifyLicense env st root license).1 =
        Except.ok StatusCode.ErrorOpeningContentProviderCertificateExpired)
    ∧ (lastUpdated env license = env.parseDateTime providerCertificate.notBeforeDate →
      env.parseDateTime providerCertificate.notBeforeDate ≤
        env.parseDateTime providerCertificate.notAfterDate →
      (VerifyLicense env st root license).1 = Except.ok StatusCode.ErrorCommonSuccess)
    ∧ (lastUpdated env license = env.parseDateTime providerCertificate.notAfterDate →
      env.parseDateTime providerCertificate.notBeforeDate ≤ lastUpdated env license →
      (VerifyLicense env st root license).1 = Except.ok StatusCode.ErrorCommonSuccess) := by
  refine ⟨?_, ?_, ?_, ?_, ?_, ?_⟩
  · intro hu
    simp [lastUpdated, isEmpty_false_of_ne hu]
  · intro hu
    simp [lastUpdated, hu, String.isEmpty]
  · intro hlt
    simp [VerifyLicense, hp, isEmpty_false_of_ne hr, h1, h2, h3, hrev, h5, hlt]
  · intro hwin hgt
    have hnb : env.parseDateTime providerCertificate.notBeforeDate ≤ lastUpdated env license :=
      le_trans hwin (le_of_lt hgt)
    simp [VerifyLicense, hp, isEmpty_false_of_ne hr, h1, h2, h3, hrev, h5, hgt,
      not_lt.mpr hnb]
  · intro heq hle
    simp [VerifyLicense, hp, isEmpty_false_of_ne hr, h1, h2, h3, hrev, h5,
      not_lt.mpr (le_of_eq heq.symm), not_lt.mpr (heq ▸ hle)]
  · intro heq hle
    simp [VerifyLicense, hp, isEmpty_false_of_ne hr, h1, h2, h3, hrev, h5,
      not_lt.mpr hle, not_lt.mpr (le_of_eq heq)]

/-- Witness for C2: boundary dates on both ends are accepted (`Success`),
a date strictly before `notBefore` gives `CertificateNotStarted`, and one
strictly after `notAfter` gives `CertificateExpired`. -/
theorem verifyLicense_validity_window_witness :
    (VerifyLicense testEnv emptyCrlState "b64:rootCert" licenseAtNotBefore).1 =
      Except.ok StatusCode.ErrorCommonSuccess
    ∧ (VerifyLicense testEnv emptyCrlState "b64:rootCert" licenseAtNotAfter).1 =
      Except.ok StatusCode.ErrorCommonSuccess
    ∧ (VerifyLicense testEnv emptyCrlState "b64:rootCert" licenseBeforeWindow).1 =
      Except.ok StatusCode.ErrorOpeningContentProviderCertificateNotStarted
    ∧ (VerifyLicense testEnv emptyCrlState "b64:rootCert" licenseAfterWindow).1 =
      Except.ok StatusCode.ErrorOpeningContentProviderCertificateExpired :=
  ⟨(verifyLicense_validity_window testEnv emptyCrlState "b64:rootCert" licenseAtNotBefore
      testProfile testRootCert testCert rfl (by decide) rfl rfl rfl rfl rfl).2.2.2.2.1
      rfl (by decide),
   (verifyLicense_validity_window testEnv emptyCrlState "b64:rootCert" licenseAtNotAfter
      testProfile testRootCert testCert rfl (by decide) rfl rfl rfl rfl rfl).2.2.2.2.2
      rfl (by decide),
   (verifyLicense_validity_window testEnv emptyCrlState "b64:rootCert" licenseBeforeWindow
      testProfile testRootCert testCert rfl (by decide) rfl rfl rfl rfl rfl).2.2.1
      (by decide),
   (verifyLicense_validity_window testEnv emptyCrlState "b64:rootCert" licenseAfterWindow
      testProfile testRootCert testCert rfl (by decide) rfl rfl rfl rfl rfl).2.2.2.1
      (by decide) (by decide)⟩

/-- C7: `ProcessRevokation` snapshots whether the CRL updater already knew
any URL, merges the certificate's distribution points, performs the one
synchronous update and starts the timer exactly when no URL was known before
the merge and at least one is known after it, and returns
`CertificateRevoked` exactly when the (possibly updated) revocation list
contains the certificate's serial — in which case `VerifyLicense` returns
that status as well. -/
theorem processRevokation_spec (env : Env) (st : CrlState) (cert : Certificate)
    (hexc : st.capturedException = none) :
    ((ProcessRevokation env st cert).didSyncUpdate =
      (st.urls.isEmpty && !(mergeUrls st.urls cert.distributionPoints).isEmpty))
    ∧ ((ProcessRevokation env st cert).didStartTimer =
      (ProcessRevokation env st cert).didSyncUpdate)
    ∧ ((ProcessRevokation env st cert).state.urls =
      mergeUrls st.urls cert.distributionPoints)
    ∧ ((ProcessRevokation env st cert).state.revokedSerials =
      (if (ProcessRevokation env st cert).didSyncUpdate = true then
        env.crlUpdate (mergeUrls st.urls cert.distributionPoints) st.revokedSerials
      else st.revokedSerials))
    ∧ ((ProcessRevokation env st cert).result =
      Except.ok
        (if (ProcessRevokation env st cert).state.revokedSerials.contains cert.serialNumber
         then StatusCode.ErrorOpeningContentProviderCertificateRevoked
         else StatusCode.ErrorCommonSuccess))
    ∧ (∀ root license profile rootCertificate,
      env.getProfile license.crypto.encryptionProfile = some profile →
      root ≠ "" → env.parseCertificate profile root = some rootCertificate →
      env.parseCertificate profile license.crypto.signatureCertificate = some cert →
      env.verifyCertificate cert rootCertificate = true →
      (ProcessRevokation env st cert).state.revokedSerials.contains cert.serialNumber = true →
      (VerifyLicense env st root license).1 =
        Except.ok StatusCode.ErrorOpeningContentProviderCertificateRevoked) := by
  refine ⟨?_, ?_, ?_, ?_, ?_, ?_⟩
  · simp [ProcessRevokation, hexc, Bool.not_not]
  · simp [ProcessRevokation, hexc]
  · simp [ProcessRevokation, hexc]
  · simp [ProcessRevokation, hexc, Bool.not_not]
  · simp [ProcessRevokation, hexc]
  · intro root license profile rootCertificate hp hr h1 h2 h3 hcon
    have hres : (ProcessRevokation env st cert).result =
        Except.ok StatusCode.ErrorOpeningContentProviderCertificateRevoked := by
      simp only [ProcessRevokation, hexc] at hcon ⊢
      simp only [hcon, if_true]
    simp [VerifyLicense, hp, isEmpty_false_of_ne hr, h1, h2, h3, hres]

/-- Witness for C7: from the empty state the merge introduces the first URL,
so the one-shot synchronous update runs and the timer starts; with an
updater that merges the test serial, revocation is detected and
`VerifyLicense` reports `CertificateRevoked`. -/
theorem processRevokation_spec_witness :
    (ProcessRevokation revokingEnv emptyCrlState testCert).didSyncUpdate = true
    ∧ (ProcessRevokation revokingEnv emptyCrlState testCert).didStartTimer = true
    ∧ (ProcessRevokation revokingEnv emptyCrlState testCert).result =
        Except.ok StatusCode.ErrorOpeningContentProviderCertificateRevoked
    ∧ (VerifyLicense revokingEnv emptyCrlState "b64:rootCert" testLicense).1 =
        Except.ok StatusCode.ErrorOpeningContentProviderCertificateRevoked := by
  have h := processRevokation_spec revokingEnv emptyCrlState testCert rfl
  exact ⟨h.1.trans (by decide), (h.2.1.trans h.1).trans (by decide),
    h.2.2.2.2.1.trans (by rfl),
    h.2.2.2.2.2 "b64:rootCert" testLicense testProfile testRootCert rfl (by decide)
      rfl rfl rfl rfl⟩

/-- C8 counterexample: the claim says a CRL fetch failure captured on the
background timer thread is non-fatal to `VerifyLicense` when the serial is
absent from previously merged lists.  On the code it is fatal: the very same
valid license that verifies with `Success` from a clean state is mapped to
the failure status `ContentProviderCertificateNotVerified` when the state
carries a captured background exception, even though the revocation list is
empty. -/
theorem verifyLicense_crl_exception_counterexample :
    crlFailureState.capturedException = some ExceptionKind.cryptoPP
    ∧ crlFailureState.revokedSerials = []
    ∧ (VerifyLicense testEnv emptyCrlState "b64:rootCert" testLicense).1 =
        Except.ok StatusCode.ErrorCommonSuccess
    ∧ (VerifyLicense testEnv crlFailureState "b64:rootCert" testLicense).1 =
        Except.ok StatusCode.ErrorOpeningContentProviderCertificateNotVerified :=
  ⟨rfl, rfl, rfl, rfl⟩

/-- C8 (amended): a failure captured on the background timer thread is
rethrown once by the next caller-side `ProcessRevokation` and then cleared,
but it is fatal to that `VerifyLicense` call: the outer handler maps the
rethrown crypto-library exception to the failure status
`ContentProviderCertificateNotVerified` even when the serial is absent from
previously merged lists, and a non-crypto-library exception escapes the
call. -/
theorem verifyLicense_crl_exception_amended (env : Env) (st : CrlState) (root : String)
    (license : ILicense) (profile : IEncryptionProfile)
    (rootCertificate providerCertificate : Certificate)
    (hp : env.getProfile license.crypto.encryptionProfile = some profile)
    (hr : root ≠ "")
    (h1 : env.parseCertificate profile root = some rootCertificate)
    (h2 : env.parseCertificate profile license.crypto.signatureCertificate =
      some providerCertificate)
    (h3 : env.verifyCertificate providerCertificate rootCertificate = true) :
    (st.capturedException = some ExceptionKind.cryptoPP →
      VerifyLicense env st root license =
        (Except.ok StatusCode.ErrorOpeningContentProviderCertificateNotVerified,
         (ProcessRevokation env st providerCertificate).state))
    ∧ (st.capturedException = some ExceptionKind.stdOther →
      VerifyLicense env st root license =
        (Except.error ExceptionKind.stdOther,
         (ProcessRevokation env st providerCertificate).state))
    ∧ (st.capturedException ≠ none →
      (ProcessRevokation env st providerCertificate).state.capturedException = none) := by
  refine ⟨?_, ?_, ?_⟩
  · intro hexc
    have hres : (ProcessRevokation env st providerCertificate).result =
        Except.error ExceptionKind.cryptoPP := by
      simp [ProcessRevokation, hexc]
    simp [VerifyLicense, hp, isEmpty_false_of_ne hr, h1, h2, h3, hres]
  · intro hexc
    have hres : (ProcessRevokation env st providerCertificate).result =
        Except.error ExceptionKind.stdOther := by
      simp [ProcessRevokation, hexc]
    simp [VerifyLicense, hp, isEmpty_false_of_ne hr, h1, h2, h3, hres]
  · intro hexc
    rcases Option.ne_none_iff_exists.mp hexc with ⟨ex, hex⟩
    simp [ProcessRevokation, ← hex]

/-- Witness for the amended C8: with the captured CryptoPP exception and the
serial absent, the call returns the failure status and the exception slot is
cleared. -/
theorem verifyLicense_crl_exception_amended_witness :
    VerifyLicense testEnv crlFailureState "b64:rootCert" testLicense =
      (Except.ok StatusCode.ErrorOpeningContentProviderCertificateNotVerified,
       (ProcessRevokation testEnv crlFailureState testCert).state)
    ∧ (ProcessRevokation testEnv crlFailureState testCert).state.capturedException = none := by
  have h := verifyLicense_crl_exception_amended testEnv crlFailureState "b64:rootCert"
    testLicense testProfile testRootCert testCert rfl (by decide) rfl rfl rfl
  exact ⟨h.1 rfl, h.2.2 (by decide)⟩

end lcp
